import Mathlib

/-!
Verification of the ANKATECH backend projection/suggestion engine.

Shallow embedding of the TypeScript sources:
  * `src/services/projection.ts`        — `ProjectionService`
  * suggestion service (`analyzeGoals`, `createSuggestions`, `simulateSuggestionImpact`)
  * `src/services/simulation-history.ts` — `SimulationHistoryService.saveSimulation`
  * `src/routes/projections.ts`          — zod body schema of `POST /projections/compare`

Modelling conventions:
  * JavaScript `number` values are modelled as exact rationals (`ℚ`); the code
    only adds, multiplies, divides, takes `Math.abs/ceil/round`, all of which
    are modelled exactly over `ℚ`.
  * A JavaScript `Date` is modelled by its calendar fields.  The code never
    performs calendar-sensitive arithmetic on dates except via `getTime`
    comparisons, `getMonth`, `getFullYear`, `setMonth`; `getTime` is modelled
    by an encoding that is faithful to equality and ordering of in-range
    dates (day ∈ 1..31, ms < 86400000).  Durations derived from `getTime`
    differences are therefore model-level approximations; no claim below
    depends on the metric value of such a difference.
  * JavaScript truthiness of `x || d` on numbers (`0` is falsy) and on
    optional values (`null`/`undefined` falsy) is modelled by `jsOrQ` /
    `Option.getD`.
-/

namespace Ankatech

/-- Model of a JavaScript `Date`: calendar year, 0-based month index (as
returned by `getMonth`), day of month, and milliseconds within the day. -/
structure JSDate where
  year : Int
  monthIdx : Nat
  day : Nat
  ms : Nat
deriving DecidableEq, Repr

/-- Model of `Date.prototype.getTime`: an encoding of the calendar fields
that preserves equality and order of in-range dates (day ≤ 31,
ms < 86400000).  The code compares timestamps; it never does calendar
arithmetic with them except in `calculateMonthsUntilDate`, see above. -/
def JSDate.getTime (d : JSDate) : Int :=
  ((d.year * 12 + d.monthIdx) * 32 + d.day) * 86400000 + d.ms

/-- `new Date(2060, 11, 31)` — default event end date used by the engine. -/
def date2060 : JSDate := ⟨2060, 11, 31, 0⟩

/-- `new Date(year, month - 1, 1)` — the simulator's per-month probe date. -/
def monthStart (year : Int) (month : Nat) : JSDate := ⟨year, month - 1, 1, 0⟩

/-- `interface ProjectionEvent` from `src/services/projection.ts`. -/
structure ProjectionEvent where
  type : String
  value : ℚ
  frequency : Option String
  startDate : Option JSDate
  endDate : Option JSDate
deriving DecidableEq, Repr

/-- `interface ProjectionPoint` from `src/services/projection.ts`. -/
structure ProjectionPoint where
  year : Int
  month : Nat
  projectedValue : ℚ
  events : List ProjectionEvent
deriving DecidableEq, Repr

/-- `interface WealthProjection` from `src/services/projection.ts`. -/
structure WealthProjection where
  clientId : String
  initialValue : ℚ
  annualRate : ℚ
  projectionPoints : List ProjectionPoint
  finalValue : ℚ
  totalReturn : ℚ
deriving DecidableEq, Repr

/-- `Math.round` on the exact-rational model: round half toward +∞. -/
def jsRound (q : ℚ) : Int := ⌊q + 1/2⌋

/-- `Math.round(x * 100) / 100` — the 2-decimal rounding used at each
projection point. -/
def round2 (q : ℚ) : ℚ := (jsRound (q * 100) : ℚ) / 100

/-- JS `x || d` for a possibly-absent number: `d` when `x` is
`null`/`undefined` **or** `0` (both falsy). -/
def jsOrQ (x : Option ℚ) (d : ℚ) : ℚ :=
  match x with
  | some v => if v = 0 then d else v
  | none => d

/-- `ProjectionService.shouldApplyEvent` (projection.ts:83-112).
`now` models the `new Date()` default taken when `event.startDate` is
absent.  The `switch` on `event.frequency` is a sequence of strict string
comparisons, written here as nested conditionals. -/
def shouldApplyEvent (now : JSDate) (event : ProjectionEvent) (currentDate : JSDate) : Bool :=
  let eventStartDate := event.startDate.getD now
  let eventEndDate := event.endDate.getD date2060
  if currentDate.getTime < eventStartDate.getTime ∨ currentDate.getTime > eventEndDate.getTime then
    false
  else if event.frequency = some "once" then
    currentDate.getTime == eventStartDate.getTime
  else if event.frequency = some "monthly" then
    true
  else if event.frequency = some "yearly" then
    currentDate.monthIdx == eventStartDate.monthIdx &&
      decide (currentDate.year ≥ eventStartDate.year)
  else
    currentDate.getTime == eventStartDate.getTime

/-- One iteration of the simulator's month loop (projection.ts:53-65): apply
monthly growth, then add the value of every applicable event, in order. -/
def stepValue (now : JSDate) (events : List ProjectionEvent) (monthlyRate : ℚ)
    (value : ℚ) (ym : Int × Nat) : ℚ :=
  let currentDate := monthStart ym.1 ym.2
  events.foldl
    (fun v e => if shouldApplyEvent now e currentDate then v + e.value else v)
    (value * (1 + monthlyRate))

/-- The events recorded on a month's projection point (projection.ts:60-65). -/
def monthEvents (now : JSDate) (events : List ProjectionEvent) (ym : Int × Nat) :
    List ProjectionEvent :=
  events.filter (fun e => shouldApplyEvent now e (monthStart ym.1 ym.2))

/-- The simulator's month loop (projection.ts:51-75), keeping for every month
both the running `currentValue` after the iteration and the pushed
`ProjectionPoint` (whose `projectedValue` is the 2-decimal rounding of the
running value; the running value itself is carried forward unrounded). -/
def simRun (now : JSDate) (events : List ProjectionEvent) (monthlyRate : ℚ) :
    ℚ → List (Int × Nat) → List (ℚ × ProjectionPoint)
  | _, [] => []
  | value, ym :: rest =>
      let newValue := stepValue now events monthlyRate value ym
      (newValue, ⟨ym.1, ym.2, round2 newValue, monthEvents now events ym⟩) ::
        simRun now events monthlyRate newValue rest

/-- The months visited by `for (year ...) for (month = 1; month <= 12; ...)`,
starting at year `y`, for `n` successive years. -/
def monthsFrom (y : Int) : Nat → List (Int × Nat)
  | 0 => []
  | n + 1 => (List.range 12).map (fun m => (y, m + 1)) ++ monthsFrom (y + 1) n

/-- All (year, month) pairs visited by the simulator's nested loops:
years `startYear..endYear` (none when `startYear > endYear`), months 1..12. -/
def monthsRange (startYear endYear : Int) : List (Int × Nat) :=
  monthsFrom startYear (endYear + 1 - startYear).toNat

/-- `ProjectionService.simulateWealthCurve` (projection.ts:39-78). -/
def simulateWealthCurve (now : JSDate) (initialValue : ℚ) (events : List ProjectionEvent)
    (annualRate : ℚ) (startYear endYear : Int) : List ProjectionPoint :=
  (simRun now events (annualRate / 12) initialValue (monthsRange startYear endYear)).map
    Prod.snd

/-- JS `x || d` for a possibly-absent string: `d` when `x` is
`null`/`undefined` or the empty string (all falsy). -/
def jsOrStr (x : Option String) (d : String) : String :=
  match x with
  | some s => if s = "" then d else s
  | none => d

/-- A client's stored event record, as loaded from the database
(`client.events` with `type`, `value`, `frequency`, `date`). -/
structure DbEvent where
  type : String
  value : ℚ
  frequency : Option String
  date : Option JSDate
deriving DecidableEq, Repr

/-- A client's stored goal record (`client.goals`). -/
structure DbGoal where
  id : String
  type : String
  amount : ℚ
  targetAt : JSDate
deriving DecidableEq, Repr

/-- A client's wallet record; `allocation` is a JSON object mapping asset
class names to percentages (`null` when absent; an empty object is truthy). -/
structure Wallet where
  totalValue : ℚ
  allocation : Option (List (String × ℚ))
deriving DecidableEq, Repr

/-- The client record as loaded with `wallet`, `events`, `goals` included. -/
structure Client where
  id : String
  wallet : Option Wallet
  events : List DbEvent
  goals : List DbGoal
deriving DecidableEq, Repr

/-- Conversion of stored client events to `ProjectionEvent`s
(projection.ts:139-145); the identical inline conversion appears in
`simulateSuggestionImpact`.  `frequency || 'once'` treats the empty string
as falsy; the `endDate` ternary tests the ORIGINAL `frequency` strictly
against `'once'`. -/
def toProjectionEvents (now : JSDate) (events : List DbEvent) : List ProjectionEvent :=
  events.map fun event =>
    { type := event.type
      value := event.value
      frequency := some (jsOrStr event.frequency "once")
      startDate := some (event.date.getD now)
      endDate := some (if event.frequency = some "once" then event.date.getD now else date2060) }

/-- Pure core of `ProjectionService.createClientProjection`
(projection.ts:117-165), after the client record has been loaded.  `now`
models `new Date()`; the simulation horizon defaults to
[`now.year`, 2060].  Note `finalValue` is
`projectionPoints[length - 1]?.projectedValue || initialValue` — the JS
`||` falls back to `initialValue` both when the list is empty and when the
last projected value is exactly `0`. -/
def createClientProjection (now : JSDate) (clientId : String) (wallet : Option Wallet)
    (events : List DbEvent) (annualRate : ℚ) : WealthProjection :=
  let initialValue := jsOrQ (wallet.map Wallet.totalValue) 0
  let projectionEvents := toProjectionEvents now events
  let projectionPoints :=
    simulateWealthCurve now initialValue projectionEvents annualRate now.year 2060
  let finalValue :=
    jsOrQ ((projectionPoints.getLast?).map ProjectionPoint.projectedValue) initialValue
  { clientId := clientId
    initialValue := initialValue
    annualRate := annualRate
    projectionPoints := projectionPoints
    finalValue := finalValue
    totalReturn := finalValue - initialValue }

/-- `ProjectionService.getAnnualProjection` (projection.ts:170-184). -/
def getAnnualProjection (projection : WealthProjection) : List (Int × ℚ) :=
  (projection.projectionPoints.filter (fun point => point.month == 12)).map
    (fun point => (point.year, point.projectedValue))

/-! ### Suggestion service (goal analyzer / suggestion generator) -/

/-- One entry of `SuggestionAnalysis.goals`: the goal analyzer's per-goal
result. -/
structure GoalAnalysis where
  id : String
  type : String
  amount : ℚ
  targetDate : JSDate
  gap : ℚ
  feasible : Bool
deriving DecidableEq, Repr

/-- `SuggestionService.analyzeGoals` (suggestion service): per goal, find
the projection point matching the target year/month;
`projectionAtTarget?.projectedValue || projection.finalValue` falls back to
the final value when no point matches or when the matching value is `0`. -/
def analyzeGoals (goals : List DbGoal) (projection : WealthProjection) : List GoalAnalysis :=
  goals.map fun goal =>
    let targetYear := goal.targetAt.year
    let targetMonth := goal.targetAt.monthIdx + 1
    let projectionAtTarget := projection.projectionPoints.find? fun point =>
      point.year == targetYear && point.month == targetMonth
    let projectedValue :=
      jsOrQ (projectionAtTarget.map ProjectionPoint.projectedValue) projection.finalValue
    let gap := goal.amount - projectedValue
    { id := goal.id
      type := goal.type
      amount := goal.amount
      targetDate := goal.targetAt
      gap := gap
      feasible := decide (gap ≤ 0) }

inductive SuggestionType
  | increase_contribution
  | reduce_expenses
  | adjust_allocation
  | extend_timeline
  | reduce_goal
deriving DecidableEq, Repr

inductive SuggestionPriority
  | high
  | medium
  | low
deriving DecidableEq, Repr

inductive SuggestionCategory
  | contribution
  | allocation
  | timeline
  | goal
deriving DecidableEq, Repr

structure SuggestionImpact where
  monthlyAmount : Option ℚ
  totalAmount : Option ℚ
  timeframe : Option ℚ
  projectedGain : Option ℚ
deriving DecidableEq, Repr

structure Suggestion where
  id : String
  type : SuggestionType
  title : String
  description : String
  impact : SuggestionImpact
  priority : SuggestionPriority
  category : SuggestionCategory
deriving DecidableEq, Repr

/-- Model of `Number.prototype.toLocaleString('pt-BR')` /
`toString`: abstracted to a canonical numeral; only the numeric argument
matters to any claim below. -/
def fmtQ (q : ℚ) : String := toString q

def fmtInt (n : Int) : String := toString n

/-- Model of `Date.prototype.toLocaleDateString('pt-BR')`, abstracted to
the calendar fields. -/
def fmtDate (d : JSDate) : String :=
  toString d.day ++ "/" ++ toString (d.monthIdx + 1) ++ "/" ++ toString d.year

/-- `SuggestionService.calculateMonthsUntilDate`:
`max(0, ceil((target - now) / (30 days of ms)))`.  The timestamp
difference is the model encoding's (see `JSDate.getTime`); no claim
depends on its metric value. -/
def calculateMonthsUntilDate (now target : JSDate) : Int :=
  let diffTime : Int := target.getTime - now.getTime
  let diffMonths : Int := ⌈(diffTime : ℚ) / (1000 * 60 * 60 * 24 * 30)⌉
  max 0 diffMonths

/-- `d.setMonth(d.getMonth() + k)` with `k ≥ 0`: month arithmetic with year
carry.  (JS would additionally normalise a day-of-month exceeding the
target month's length; no claim depends on that.) -/
def addMonths (d : JSDate) (k : Int) : JSDate :=
  let total : Int := d.monthIdx + k
  ⟨d.year + total.fdiv 12, (total.emod 12).toNat, d.day, d.ms⟩

/-- The priority formula used for the increase-contribution suggestion:
`gap > 100000 ? 'high' : gap > 50000 ? 'medium' : 'low'`. -/
def gapPriority (gap : ℚ) : SuggestionPriority :=
  if gap > 100000 then .high else if gap > 50000 then .medium else .low

/-- The increase-contribution suggestion pushed for an infeasible goal when
`monthsUntilGoal > 0`. -/
def incSuggestion (goal : GoalAnalysis) (monthsUntilGoal : Int) : Suggestion :=
  let monthlyIncrease : Int := ⌈goal.gap / (monthsUntilGoal : ℚ)⌉
  { id := "increase_contribution_" ++ goal.id
    type := .increase_contribution
    title := "Aumentar Contribuição Mensal"
    description := "Para atingir a meta \"" ++ goal.type ++
      "\", aumente sua contribuição mensal em R$ " ++ fmtInt monthlyIncrease ++
      " pelos próximos " ++ fmtInt monthsUntilGoal ++ " meses."
    impact := ⟨some (monthlyIncrease : ℚ), none, some (monthsUntilGoal : ℚ), some goal.gap⟩
    priority := gapPriority goal.gap
    category := .contribution }

/-- The extend-timeline suggestion, always pushed for an infeasible goal;
`extendedMonths = Math.ceil(goal.gap / 1000)`, priority fixed `'medium'`. -/
def extSuggestion (goal : GoalAnalysis) : Suggestion :=
  let extendedMonths : Int := ⌈goal.gap / 1000⌉
  let newTargetDate := addMonths goal.targetDate extendedMonths
  { id := "extend_timeline_" ++ goal.id
    type := .extend_timeline
    title := "Estender Prazo da Meta"
    description := "Considere estender o prazo da meta \"" ++ goal.type ++
      "\" para " ++ fmtDate newTargetDate ++ " para torná-la mais viável."
    impact := ⟨none, none, some (extendedMonths : ℚ), some goal.gap⟩
    priority := .medium
    category := .timeline }

/-- The reduce-goal suggestion, always pushed for an infeasible goal; the
description proposes `goal.amount - Math.abs(goal.gap)` as the new target,
priority fixed `'low'`. -/
def redSuggestion (goal : GoalAnalysis) : Suggestion :=
  let reducedAmount := goal.amount - |goal.gap|
  { id := "reduce_goal_" ++ goal.id
    type := .reduce_goal
    title := "Ajustar Valor da Meta"
    description := "Considere reduzir o valor da meta \"" ++ goal.type ++
      "\" para R$ " ++ fmtQ reducedAmount ++ " para torná-la mais realista."
    impact := ⟨none, some |goal.gap|, none, none⟩
    priority := .low
    category := .goal }

/-- The allocation-optimisation suggestion, pushed when some allocation
percentage exceeds 60; estimated gain `finalValue * 0.15`, priority fixed
`'medium'`. -/
def allocSuggestion (projection : WealthProjection) : Suggestion :=
  { id := "optimize_allocation"
    type := .adjust_allocation
    title := "Otimizar Alocação de Ativos"
    description := "Sua carteira parece conservadora. Considere aumentar a exposição a ativos de maior rentabilidade para acelerar o crescimento."
    impact := ⟨none, none, none, some (projection.finalValue * (15 / 100))⟩
    priority := .medium
    category := .allocation }

/-- The per-goal body of the `goalAnalysis.forEach` in `createSuggestions`:
pushes nothing for a feasible goal, else the (conditional) contribution
suggestion followed by the timeline and goal suggestions. -/
def perGoalSuggestions (now : JSDate) (goal : GoalAnalysis) : List Suggestion :=
  if goal.feasible = false ∧ goal.gap > 0 then
    let monthsUntilGoal := calculateMonthsUntilDate now goal.targetDate
    (if monthsUntilGoal > 0 then [incSuggestion goal monthsUntilGoal] else []) ++
      [extSuggestion goal, redSuggestion goal]
  else []

/-- `client.wallet && client.wallet.allocation &&
Object.values(allocation).some(v => v > 60)` — note a `null` allocation is
falsy while an empty object is truthy with no value above 60. -/
def allocationFlag (client : Client) : Bool :=
  match client.wallet with
  | some w =>
      match w.allocation with
      | some alloc => alloc.any (fun kv => decide (kv.2 > 60))
      | none => false
  | none => false

/-- The `suggestions` array of `SuggestionService.createSuggestions` as
built before the final sort. -/
def createSuggestionsBase (now : JSDate) (client : Client) (goalAnalysis : List GoalAnalysis)
    (projection : WealthProjection) : List Suggestion :=
  (goalAnalysis.flatMap (perGoalSuggestions now)) ++
    (if allocationFlag client then [allocSuggestion projection] else [])

/-- `priorityOrder = { high: 3, medium: 2, low: 1 }`. -/
def priorityOrder : SuggestionPriority → Nat
  | .high => 3
  | .medium => 2
  | .low => 1

/-- `suggestions.sort((a, b) => priorityOrder[b.priority] -
priorityOrder[a.priority])`.  `Array.prototype.sort` is stable, and with a
three-valued key the stable descending sort is exactly this bucket
concatenation. -/
def sortByPriority (l : List Suggestion) : List Suggestion :=
  l.filter (fun s => s.priority == .high) ++
    (l.filter (fun s => s.priority == .medium) ++
      l.filter (fun s => s.priority == .low))

/-- `SuggestionService.createSuggestions`. -/
def createSuggestions (now : JSDate) (client : Client) (goalAnalysis : List GoalAnalysis)
    (projection : WealthProjection) : List Suggestion :=
  sortByPriority (createSuggestionsBase now client goalAnalysis projection)

/-- Pure core of `SuggestionService.simulateSuggestionImpact`, after the
client record has been loaded.  A synthetic monthly event is appended only
for an `increase_contribution` suggestion with a truthy (present, nonzero)
`impact.monthlyAmount`; the annual rate is the 0.04 default. -/
def simulateSuggestionImpact (now : JSDate) (clientId : String) (wallet : Option Wallet)
    (events : List DbEvent) (suggestion : Suggestion) : WealthProjection :=
  let hasMonthly : Bool :=
    match suggestion.impact.monthlyAmount with
    | some a => decide (a ≠ 0)
    | none => false
  let simulatedEvents :=
    if suggestion.type = SuggestionType.increase_contribution ∧ hasMonthly = true then
      events ++ [⟨"Aporte Adicional", suggestion.impact.monthlyAmount.getD 0,
        some "monthly", some now⟩]
    else events
  let projectionEvents := toProjectionEvents now simulatedEvents
  let initialValue := jsOrQ (wallet.map Wallet.totalValue) 0
  let projectionPoints :=
    simulateWealthCurve now initialValue projectionEvents (4 / 100) now.year 2060
  let finalValue :=
    jsOrQ ((projectionPoints.getLast?).map ProjectionPoint.projectedValue) initialValue
  { clientId := clientId
    initialValue := initialValue
    annualRate := 4 / 100
    projectionPoints := projectionPoints
    finalValue := finalValue
    totalReturn := finalValue - initialValue }

/-! ### Simulation history -/

structure SavedParameters where
  initialValue : ℚ
  annualRate : ℚ
  events : List ProjectionEvent
deriving DecidableEq, Repr

structure SavedResults where
  finalValue : ℚ
  totalReturn : ℚ
  projectionYears : Int
deriving DecidableEq, Repr

/-- The metadata block stored inside a saved simulation's payload. -/
structure SavedMetadata where
  name : String
  description : Option String
  tags : List String
  parameters : SavedParameters
  results : SavedResults
deriving DecidableEq, Repr

/-- The event-deduplication `reduce` in `saveSimulation`
(simulation-history.ts:72-85): keep the first occurrence of each
(type, value, frequency) combination. -/
def dedupEvents (events : List ProjectionEvent) : List ProjectionEvent :=
  events.foldl
    (fun unique event =>
      match unique.find? (fun e =>
          e.type == event.type && e.value == event.value && e.frequency == event.frequency) with
      | some _ => unique
      | none => unique ++ [event])
    []

/-- Pure core of `SimulationHistoryService.saveSimulation`
(simulation-history.ts:52-101): the metadata snapshot stored with the
projection.  `now` models `new Date()`; note
`projectionYears: new Date().getFullYear() - 2060`. -/
def buildSavedMetadata (now : JSDate) (projection : WealthProjection)
    (name description : Option String) (tags : Option (List String)) : SavedMetadata :=
  { name := jsOrStr name ("Simulação " ++ fmtDate now)
    description := description
    tags := tags.getD []
    parameters :=
      { initialValue := projection.initialValue
        annualRate := projection.annualRate
        events := dedupEvents
          (((projection.projectionPoints.filter (fun point => point.events.length > 0)).map
            ProjectionPoint.events).flatten) }
    results :=
      { finalValue := projection.finalValue
        totalReturn := projection.totalReturn
        projectionYears := now.year - 2060 } }

/-! ### Comparison request validation -/

/-- zod `z.string().cuid()`: the regex `^c[^\s-]\x7b8,\x7d$` (case
insensitive on the leading `c`); `\s` is modelled by
`Char.isWhitespace`. -/
def isCuid (s : String) : Bool :=
  match s.data with
  | [] => false
  | c :: rest =>
      (c == 'c' || c == 'C') && decide (rest.length ≥ 8) &&
        rest.all (fun ch => !ch.isWhitespace && ch != '-')

/-- Body schema of `POST /projections/compare`
(`z.array(z.string().cuid()).min(2).max(5)`, projections.ts:319): the
request passes validation iff this holds; otherwise `validateBody` replies
with a 400 validation error and `compareSimulations` is never invoked. -/
def compareBodyValid (simulationIds : List String) : Bool :=
  simulationIds.all isCuid &&
    (decide (2 ≤ simulationIds.length) && decide (simulationIds.length ≤ 5))

/-! ## Helper lemmas -/

theorem simRun_length (now : JSDate) (events : List ProjectionEvent) (mr : ℚ) :
    ∀ (l : List (Int × Nat)) (v : ℚ), (simRun now events mr v l).length = l.length := by
  intro l
  induction l with
  | nil => intro v; rfl
  | cons ym rest ih => intro v; simp [simRun, ih]

theorem simRun_map_ym (now : JSDate) (events : List ProjectionEvent) (mr : ℚ) :
    ∀ (l : List (Int × Nat)) (v : ℚ),
      (simRun now events mr v l).map (fun x => (x.2.year, x.2.month)) = l := by
  intro l
  induction l with
  | nil => intro v; rfl
  | cons ym rest ih => intro v; simp [simRun, ih]

theorem simRun_snd_events (now : JSDate) (events : List ProjectionEvent) (mr : ℚ) :
    ∀ (l : List (Int × Nat)) (v : ℚ) (i : Nat),
      ((simRun now events mr v l)[i]?).map (fun x => x.2.events) =
        (l[i]?).map (monthEvents now events) := by
  intro l
  induction l with
  | nil => intro v i; rfl
  | cons ym rest ih =>
      intro v i
      match i with
      | 0 => simp [simRun]
      | (j + 1) => simp only [simRun, List.getElem?_cons_succ]; exact ih _ j

theorem simRun_proj_round (now : JSDate) (events : List ProjectionEvent) (mr : ℚ) :
    ∀ (l : List (Int × Nat)) (v : ℚ) (i : Nat),
      ((simRun now events mr v l)[i]?).map (fun x => x.2.projectedValue) =
        ((simRun now events mr v l)[i]?).map (fun x => round2 x.1) := by
  intro l
  induction l with
  | nil => intro v i; rfl
  | cons ym rest ih =>
      intro v i
      match i with
      | 0 => simp [simRun]
      | (j + 1) => simp only [simRun, List.getElem?_cons_succ]; exact ih _ j

theorem simRun_chain (now : JSDate) (events : List ProjectionEvent) (mr : ℚ) :
    ∀ (l : List (Int × Nat)) (v : ℚ) (i : Nat) (a b : ℚ × ProjectionPoint) (ym : Int × Nat),
      (simRun now events mr v l)[i]? = some a →
      (simRun now events mr v l)[i + 1]? = some b →
      l[i + 1]? = some ym →
      b.1 = stepValue now events mr a.1 ym := by
  intro l
  induction l with
  | nil => intro v i a b ym ha; simp [simRun] at ha
  | cons ym0 rest ih =>
      intro v i a b ym ha hb hym
      match i with
      | 0 =>
          simp only [simRun, List.getElem?_cons_zero, List.getElem?_cons_succ,
            Option.some.injEq] at ha hb hym
          match rest, hb, hym with
          | ym1 :: rest1, hb, hym =>
              simp only [simRun, List.getElem?_cons_zero, Option.some.injEq] at hb hym
              subst ha hym hb
              rfl
      | (j + 1) =>
          simp only [simRun, List.getElem?_cons_succ] at ha hb hym
          exact ih _ j a b ym ha hb hym

theorem simRun_snd_ym (now : JSDate) (events : List ProjectionEvent) (mr : ℚ) :
    ∀ (l : List (Int × Nat)) (v : ℚ) (i : Nat),
      ((simRun now events mr v l)[i]?).map (fun x => (x.2.year, x.2.month)) = l[i]? := by
  intro l
  induction l with
  | nil => intro v i; rfl
  | cons ym rest ih =>
      intro v i
      match i with
      | 0 => simp [simRun]
      | (j + 1) => simp only [simRun, List.getElem?_cons_succ]; exact ih _ j

theorem monthsFrom_length : ∀ (n : Nat) (y : Int), (monthsFrom y n).length = 12 * n := by
  intro n
  induction n with
  | zero => intro y; rfl
  | succ n ih =>
      intro y
      simp only [monthsFrom, List.length_append, List.length_map, List.length_range, ih]
      omega

theorem monthsFrom_getElem :
    ∀ (n : Nat) (y : Int) (i : Nat), i < 12 * n →
      (monthsFrom y n)[i]? = some (y + (i / 12 : Nat), i % 12 + 1) := by
  intro n
  induction n with
  | zero => intro y i hi; omega
  | succ n ih =>
      intro y i hi
      have hdef : monthsFrom y (n + 1) =
          ((List.range 12).map (fun m => (y, m + 1))) ++ monthsFrom (y + 1) n := rfl
      have hlen : ((List.range 12).map (fun m => (y, m + 1))).length = 12 := by simp
      rw [hdef]
      by_cases h12 : i < 12
      · rw [List.getElem?_append]
        rw [if_pos (by omega)]
        rw [List.getElem?_map, List.getElem?_range h12]
        have hd : i / 12 = 0 := Nat.div_eq_of_lt h12
        have hm : i % 12 = i := Nat.mod_eq_of_lt h12
        rw [hd, hm]
        simp
      · rw [List.getElem?_append_right (by omega)]
        rw [hlen]
        rw [ih (y + 1) (i - 12) (by omega)]
        have e1 : i / 12 = (i - 12) / 12 + 1 := by omega
        have e2 : (i - 12) % 12 = i % 12 := by omega
        rw [e1, e2]
        have : y + 1 + (((i - 12) / 12 : Nat) : Int) = y + (((i - 12) / 12 + 1 : Nat) : Int) := by
          push_cast
          ring
        rw [this]

/-! ## Claims -/

/-- C1: with an empty event list, a 12-month horizon (startYear = endYear)
and any rate `r ∈ [0, 1]`, the simulator's final point carries
`round2 (v * (1 + r / 12) ^ 12)` — monthly compounding of the unrounded
running value, rounded once at the recorded point. -/
theorem simulator_12mo_closed_form (now : JSDate) (v r : ℚ) (y : Int)
    (h0 : 0 ≤ r) (h1 : r ≤ 1) :
    ((simulateWealthCurve now v [] r y y).map ProjectionPoint.projectedValue).getLast? =
      some (round2 (v * (1 + r / 12) ^ 12)) := by
  have hy : (y + 1 - y).toNat = 1 := by omega
  have hr : List.range 12 = [0, 1, 2, 3, 4, 5, 6, 7, 8, 9, 10, 11] := rfl
  have hm : monthsRange y y =
      [(y, 1), (y, 2), (y, 3), (y, 4), (y, 5), (y, 6), (y, 7), (y, 8), (y, 9), (y, 10),
        (y, 11), (y, 12)] := by
    simp [monthsRange, hy, monthsFrom, hr]
  rw [simulateWealthCurve, hm]
  simp only [simRun, stepValue, monthEvents, List.foldl_nil, List.filter_nil, List.map_cons,
    List.map_nil, List.getLast?_cons_cons, List.getLast?_singleton]
  congr 1
  ring

/-- Witness for C1: the spec scenario `initialValue = 10000`,
`annualRate = 0.04`, 2024→2024 yields a final value of 10407.42. -/
theorem simulator_12mo_closed_form_witness :
    ((simulateWealthCurve ⟨2024, 0, 1, 0⟩ 10000 [] (4 / 100) 2024
        2024).map ProjectionPoint.projectedValue).getLast? = some (1040742 / 100) := by
  rw [simulator_12mo_closed_form ⟨2024, 0, 1, 0⟩ 10000 (4 / 100) 2024 (by norm_num)
    (by norm_num)]
  rw [round2, jsRound]
  norm_num

/-- C2: for `startYear ≤ endYear` the simulator returns exactly
`12 * (endYear - startYear + 1)` points, in order, the `i`-th being
calendar month `i % 12 + 1` of year `startYear + i / 12` — one point per
calendar month from (startYear, 1) to (endYear, 12). -/
theorem simulator_point_grid (now : JSDate) (v : ℚ) (events : List ProjectionEvent) (r : ℚ)
    (y1 y2 : Int) (hle : y1 ≤ y2) :
    (simulateWealthCurve now v events r y1 y2).length = 12 * (y2 - y1 + 1).toNat ∧
    ∀ (i : Nat) (hi : i < (simulateWealthCurve now v events r y1 y2).length),
      ((simulateWealthCurve now v events r y1 y2).get ⟨i, hi⟩).year = y1 + (i / 12 : Nat) ∧
      ((simulateWealthCurve now v events r y1 y2).get ⟨i, hi⟩).month = i % 12 + 1 := by
  have hlen : (simulateWealthCurve now v events r y1 y2).length =
      (monthsRange y1 y2).length := by
    simp [simulateWealthCurve, simRun_length]
  constructor
  · rw [hlen, monthsRange, monthsFrom_length]
    congr 1
    omega
  · intro i hi
    have hi' : i < (monthsRange y1 y2).length := by rw [← hlen]; exact hi
    have hi'' : i < 12 * (y2 + 1 - y1).toNat := by
      rw [monthsRange, monthsFrom_length] at hi'
      exact hi'
    have hmf := monthsFrom_getElem ((y2 + 1 - y1).toNat) y1 i hi''
    have hmap := simRun_snd_ym now events (r / 12) (monthsRange y1 y2) v i
    have hs : i < (simRun now events (r / 12) v (monthsRange y1 y2)).length := by
      rw [simRun_length]; exact hi'
    rw [List.getElem?_eq_getElem hs] at hmap
    rw [show (monthsRange y1 y2)[i]? = (monthsFrom y1 ((y2 + 1 - y1).toNat))[i]? from rfl,
      hmf] at hmap
    simp only [Option.map_some', Option.some.injEq] at hmap
    have hget : (simulateWealthCurve now v events r y1 y2).get ⟨i, hi⟩ =
        ((simRun now events (r / 12) v (monthsRange y1 y2)).get ⟨i, hs⟩).2 := by
      simp [simulateWealthCurve]
    rw [hget]
    constructor
    · have := congrArg Prod.fst hmap
      simpa using this
    · have := congrArg Prod.snd hmap
      simpa using this

/-- Witness for C2: a 2024→2025 run has 24 points; point 13 (index 12) is
January 2025. -/
theorem simulator_point_grid_witness :
    (simulateWealthCurve ⟨2024, 0, 1, 0⟩ 100 [] (4 / 100) 2024 2025).length = 24 ∧
    ((simulateWealthCurve ⟨2024, 0, 1, 0⟩ 100 [] (4 / 100) 2024 2025).get
        ⟨12, by decide⟩).year = 2025 ∧
    ((simulateWealthCurve ⟨2024, 0, 1, 0⟩ 100 [] (4 / 100) 2024 2025).get
        ⟨12, by decide⟩).month = 1 := by
  have h := simulator_point_grid ⟨2024, 0, 1, 0⟩ 100 [] (4 / 100) 2024 2025 (by omega)
  refine ⟨by rw [h.1]; decide, ?_, ?_⟩
  · have := (h.2 12 (by decide)).1
    rw [this]
    decide
  · have := (h.2 12 (by decide)).2
    rw [this]

/-- The month grid of a single-year simulation, fully evaluated. -/
theorem monthsRange_2024 : monthsRange 2024 2024 =
    [(2024, 1), (2024, 2), (2024, 3), (2024, 4), (2024, 5), (2024, 6), (2024, 7), (2024, 8),
      (2024, 9), (2024, 10), (2024, 11), (2024, 12)] := by
  decide

/-- C3 counterexample: in the run `initialValue = 1000`,
`annualRate = 0.04`, 2024→2024 with no events, month 1 records 1003.33 and
month 2 records 1006.68; but stepping the month-1 *rounded* value through
month 2 gives 1006.67.  Hence the value carried into month 2 is not the
rounded `projectedValue` recorded at month 1 — the carry is unrounded. -/
theorem sim_carry_rounding_cex :
    ((simulateWealthCurve ⟨2024, 0, 1, 0⟩ 1000 [] (4 / 100) 2024 2024).map
        ProjectionPoint.projectedValue)[0]? = some (100333 / 100) ∧
    ((simulateWealthCurve ⟨2024, 0, 1, 0⟩ 1000 [] (4 / 100) 2024 2024).map
        ProjectionPoint.projectedValue)[1]? = some (25167 / 25) ∧
    round2 (stepValue ⟨2024, 0, 1, 0⟩ [] ((4 / 100) / 12) (100333 / 100) (2024, 2)) =
      100667 / 100 ∧
    ((25167 / 25 : ℚ) ≠ 100667 / 100) := by
  refine ⟨?_, ?_, ?_, by norm_num⟩
  · simp only [simulateWealthCurve, monthsRange_2024, simRun, stepValue, monthEvents,
      List.foldl_nil, List.filter_nil, List.map_cons, List.getElem?_cons_zero,
      Option.some.injEq, round2, jsRound]
    norm_num
  · simp only [simulateWealthCurve, monthsRange_2024, simRun, stepValue, monthEvents,
      List.foldl_nil, List.filter_nil, List.map_cons, List.getElem?_cons_succ,
      List.getElem?_cons_zero, Option.some.injEq, round2, jsRound]
    norm_num
  · simp only [stepValue, List.foldl_nil, round2, jsRound]
    norm_num

/-- C3 (amended): the simulator rounds to 2 decimals only at each recorded
point: the `i`-th recorded `projectedValue` is `round2` of the `i`-th raw
running value, and the raw (unrounded) running value — not the rounded
one — is what month `i + 1`'s growth and events are applied to. -/
theorem sim_carry_unrounded (now : JSDate) (events : List ProjectionEvent) (v r : ℚ)
    (y1 y2 : Int) (i : Nat) :
    ((simulateWealthCurve now v events r y1 y2)[i]?).map ProjectionPoint.projectedValue =
      ((simRun now events (r / 12) v (monthsRange y1 y2))[i]?).map (fun x => round2 x.1) ∧
    ∀ (a b : ℚ × ProjectionPoint) (ym : Int × Nat),
      (simRun now events (r / 12) v (monthsRange y1 y2))[i]? = some a →
      (simRun now events (r / 12) v (monthsRange y1 y2))[i + 1]? = some b →
      (monthsRange y1 y2)[i + 1]? = some ym →
      b.1 = stepValue now events (r / 12) a.1 ym := by
  constructor
  · rw [simulateWealthCurve, List.getElem?_map, Option.map_map]
    exact simRun_proj_round now events (r / 12) (monthsRange y1 y2) v i
  · exact fun a b ym => simRun_chain now events (r / 12) (monthsRange y1 y2) v i a b ym

/-- Witness for C3's amended theorem at rate 0: the raw value carried into
month 2 of a 2024→2024 run from 1000 is 1000. -/
theorem sim_carry_unrounded_witness :
    (1000 : ℚ) = stepValue ⟨2024, 0, 1, 0⟩ [] ((0 : ℚ) / 12) 1000 (2024, 2) := by
  have h := (sim_carry_unrounded ⟨2024, 0, 1, 0⟩ [] 1000 0 2024 2024 0).2
    (1000 * (1 + (0 : ℚ) / 12),
      ⟨2024, 1, round2 (1000 * (1 + (0 : ℚ) / 12)), []⟩)
    (1000 * (1 + (0 : ℚ) / 12) * (1 + (0 : ℚ) / 12),
      ⟨2024, 2, round2 (1000 * (1 + (0 : ℚ) / 12) * (1 + (0 : ℚ) / 12)), []⟩)
    (2024, 2)
    (by simp only [monthsRange_2024, simRun, stepValue, monthEvents, List.foldl_nil,
          List.filter_nil, List.getElem?_cons_zero])
    (by simp only [monthsRange_2024, simRun, stepValue, monthEvents, List.foldl_nil,
          List.filter_nil, List.getElem?_cons_succ, List.getElem?_cons_zero])
    (by rw [monthsRange_2024]; decide)
  rw [show ((1000 : ℚ) * (1 + (0 : ℚ) / 12) * (1 + (0 : ℚ) / 12), (⟨2024, 2,
      round2 (1000 * (1 + (0 : ℚ) / 12) * (1 + (0 : ℚ) / 12)), []⟩ : ProjectionPoint)).1 =
      1000 * (1 + (0 : ℚ) / 12) * (1 + (0 : ℚ) / 12) from rfl] at h
  rw [show ((1000 : ℚ) * (1 + (0 : ℚ) / 12), (⟨2024, 1,
      round2 (1000 * (1 + (0 : ℚ) / 12)), []⟩ : ProjectionPoint)).1 =
      1000 * (1 + (0 : ℚ) / 12) from rfl] at h
  calc (1000 : ℚ) = 1000 * (1 + (0 : ℚ) / 12) * (1 + (0 : ℚ) / 12) := by norm_num
    _ = stepValue ⟨2024, 0, 1, 0⟩ [] ((0 : ℚ) / 12) (1000 * (1 + (0 : ℚ) / 12)) (2024, 2) := h
    _ = stepValue ⟨2024, 0, 1, 0⟩ [] ((0 : ℚ) / 12) 1000 (2024, 2) := by
        rw [show (1000 : ℚ) * (1 + (0 : ℚ) / 12) = 1000 by norm_num]

theorem simRun_snd_point (now : JSDate) (events : List ProjectionEvent) (mr : ℚ) :
    ∀ (l : List (Int × Nat)) (v : ℚ) (i : Nat) (x : ℚ × ProjectionPoint),
      (simRun now events mr v l)[i]? = some x →
      ∃ ym, l[i]? = some ym ∧ x.2.year = ym.1 ∧ x.2.month = ym.2 ∧
        x.2.events = monthEvents now events ym := by
  intro l
  induction l with
  | nil => intro v i x hx; simp [simRun] at hx
  | cons ym0 rest ih =>
      intro v i x hx
      match i with
      | 0 =>
          simp only [simRun, List.getElem?_cons_zero, Option.some.injEq] at hx
          subst hx
          exact ⟨ym0, by simp, rfl, rfl, rfl⟩
      | (j + 1) =>
          simp only [simRun, List.getElem?_cons_succ] at hx ⊢
          exact ih _ j x hx

/-- For an event whose frequency is neither `'monthly'` nor `'yearly'`
(i.e. `'once'`, absent, or unrecognized — all take the `once` semantics),
`shouldApplyEvent` holds iff the probed date's timestamp is EXACTLY the
event's (defaulted) start timestamp and within the (defaulted) end bound. -/
theorem shouldApply_once_iff (now : JSDate) (ev : ProjectionEvent) (d : JSDate)
    (hfreq : ev.frequency ≠ some "monthly" ∧ ev.frequency ≠ some "yearly") :
    (shouldApplyEvent now ev d = true ↔
      d.getTime = (ev.startDate.getD now).getTime ∧
      d.getTime ≤ (ev.endDate.getD date2060).getTime) := by
  obtain ⟨hm, hy⟩ := hfreq
  simp only [shouldApplyEvent]
  by_cases hguard : d.getTime < (ev.startDate.getD now).getTime ∨
      d.getTime > (ev.endDate.getD date2060).getTime
  · rw [if_pos hguard]
    simp only [Bool.false_eq_true, false_iff, not_and]
    intro h1 h2
    omega
  · rw [if_neg hguard]
    push_neg at hguard
    by_cases honce : ev.frequency = some "once"
    · rw [if_pos honce]
      simp only [beq_iff_eq]
      exact ⟨fun h => ⟨h, hguard.2⟩, fun h => h.1⟩
    · rw [if_neg honce, if_neg hm, if_neg hy]
      simp only [beq_iff_eq]
      exact ⟨fun h => ⟨h, hguard.2⟩, fun h => h.1⟩

/-- C4 counterexample: a `'once'` event whose `startDate` is 2024-01-15
(not the first instant of its month) is applied in NO month of a 2024→2024
simulation: the simulator compares exact timestamps
(`currentDate.getTime() === eventStartDate.getTime()`), and every probed
`currentDate` is the first of a month at midnight.  The claim predicts it
fires at the (2024, January) point. -/
theorem once_midmonth_cex :
    ((simulateWealthCurve ⟨2024, 0, 1, 0⟩ 1000
        [⟨"aporte", 100, some "once", some ⟨2024, 0, 15, 0⟩, none⟩] 0 2024 2024).map
      (fun p => p.events.length)) = [0, 0, 0, 0, 0, 0, 0, 0, 0, 0, 0, 0] ∧
    ((simulateWealthCurve ⟨2024, 0, 1, 0⟩ 1000
        [⟨"aporte", 100, some "once", some ⟨2024, 0, 15, 0⟩, none⟩] 0 2024 2024)[0]?).map
      (fun p => (p.year, p.month)) = some (2024, 1) := by
  constructor
  · decide
  · decide

/-- C4 (amended): an event with `once` (or defaulted) semantics appears in
a simulated month's `events` iff it is in the input list and the month's
probe date (first of month, midnight) has EXACTLY the start timestamp (and
is within the end bound); a start date not at the first instant of a month
therefore never fires. -/
theorem once_event_applies_iff (now : JSDate) (v : ℚ) (events : List ProjectionEvent)
    (r : ℚ) (y1 y2 : Int) (ev : ProjectionEvent) (i : Nat) (p : ProjectionPoint)
    (hfreq : ev.frequency ≠ some "monthly" ∧ ev.frequency ≠ some "yearly")
    (hp : (simulateWealthCurve now v events r y1 y2)[i]? = some p) :
    ev ∈ p.events ↔
      ev ∈ events ∧
      (monthStart p.year p.month).getTime = (ev.startDate.getD now).getTime ∧
      (monthStart p.year p.month).getTime ≤ (ev.endDate.getD date2060).getTime := by
  rw [simulateWealthCurve, List.getElem?_map] at hp
  rcases hx : (simRun now events (r / 12) v (monthsRange y1 y2))[i]? with _ | x
  · rw [hx] at hp; simp at hp
  · rw [hx] at hp
    simp only [Option.map_some', Option.some.injEq] at hp
    obtain ⟨ym, _, hyear, hmonth, hevents⟩ :=
      simRun_snd_point now events (r / 12) (monthsRange y1 y2) v i x hx
    subst hp
    rw [hevents, hyear, hmonth, monthEvents, List.mem_filter]
    rw [shouldApply_once_iff now ev (monthStart ym.1 ym.2) hfreq]

/-- Witness for C4's amended theorem: a `'once'` event starting exactly at
2024-01-01 midnight IS recorded on the January 2024 point. -/
theorem once_event_applies_iff_witness :
    ((simulateWealthCurve ⟨2024, 0, 1, 0⟩ 1000
        [⟨"aporte", 100, some "once", some ⟨2024, 0, 1, 0⟩, none⟩] 0 2024 2024)[0]?).map
      (fun p => decide
        ((⟨"aporte", 100, some "once", some ⟨2024, 0, 1, 0⟩, none⟩ : ProjectionEvent)
          ∈ p.events)) = some true := by
  cases hp : (simulateWealthCurve ⟨2024, 0, 1, 0⟩ 1000
      [⟨"aporte", 100, some "once", some ⟨2024, 0, 1, 0⟩, none⟩] 0 2024 2024)[0]? with
  | none => exact absurd hp (by decide)
  | some p =>
      have h2 : ((simulateWealthCurve ⟨2024, 0, 1, 0⟩ 1000
          [⟨"aporte", 100, some "once", some ⟨2024, 0, 1, 0⟩, none⟩] 0 2024 2024)[0]?).map
            (fun q => (q.year, q.month)) = some (2024, 1) := by decide
      rw [hp] at h2
      simp only [Option.map_some', Option.some.injEq, Prod.mk.injEq] at h2
      have hiff := once_event_applies_iff ⟨2024, 0, 1, 0⟩ 1000
        [⟨"aporte", 100, some "once", some ⟨2024, 0, 1, 0⟩, none⟩] 0 2024 2024
        ⟨"aporte", 100, some "once", some ⟨2024, 0, 1, 0⟩, none⟩ 0 p (by decide) hp
      have hmem := hiff.mpr ⟨by decide,
        by rw [h2.1, h2.2]; decide,
        by rw [h2.1, h2.2]; decide⟩
      simp [hmem]

/-- C5 counterexample: a projection that reaches exactly 0 at the goal's
target month (January 2024) and has `finalValue = 500`.  The matching
point EXISTS, yet `analyzeGoals` computes `gap = 1000 - 500` (the JS `||`
treats the matched value `0` as falsy and falls back to `finalValue`),
not `gap = 1000 - 0` as the claim requires when a matching point exists. -/
theorem analyzeGoals_zero_point_cex :
    (((⟨"c1", 100, 0, [⟨2024, 1, 0, []⟩, ⟨2024, 2, 500, []⟩], 500, 400⟩ :
        WealthProjection).projectionPoints.find? (fun point =>
          point.year == (2024 : Int) && point.month == 0 + 1)).map
        ProjectionPoint.projectedValue = some 0) ∧
    (analyzeGoals [⟨"g1", "casa", 1000, ⟨2024, 0, 1, 0⟩⟩]
        ⟨"c1", 100, 0, [⟨2024, 1, 0, []⟩, ⟨2024, 2, 500, []⟩], 500, 400⟩).map
        GoalAnalysis.gap = [500] ∧
    ((1000 : ℚ) - 0 ≠ 500) := by
  refine ⟨by decide, ?_, by norm_num⟩
  simp only [analyzeGoals, jsOrQ, List.map_cons, List.map_nil, List.cons.injEq, and_true]
  norm_num

/-- C5 (amended): `analyzeGoals` reports `gap = amount - v` where `v` is
the matching point's `projectedValue` when a point matching the target
year/month exists AND its value is nonzero; it falls back to the
projection's `finalValue` both when no matching point exists and when the
matching point's value is exactly `0` (JS falsy `||`).  `feasible` is
`gap ≤ 0`. -/
theorem analyzeGoals_gap (goals : List DbGoal) (P : WealthProjection) (i : Nat)
    (g : DbGoal) (a : GoalAnalysis)
    (hg : goals[i]? = some g) (ha : (analyzeGoals goals P)[i]? = some a) :
    (a.feasible = true ↔ a.gap ≤ 0) ∧
    (∀ p, P.projectionPoints.find? (fun point =>
        point.year == g.targetAt.year && point.month == g.targetAt.monthIdx + 1) = some p →
      p.projectedValue ≠ 0 → a.gap = g.amount - p.projectedValue) ∧
    (P.projectionPoints.find? (fun point =>
        point.year == g.targetAt.year && point.month == g.targetAt.monthIdx + 1) = none →
      a.gap = g.amount - P.finalValue) ∧
    (∀ p, P.projectionPoints.find? (fun point =>
        point.year == g.targetAt.year && point.month == g.targetAt.monthIdx + 1) = some p →
      p.projectedValue = 0 → a.gap = g.amount - P.finalValue) := by
  rw [analyzeGoals, List.getElem?_map, hg, Option.map_some', Option.some.injEq] at ha
  subst ha
  refine ⟨by simp [decide_eq_true_iff], ?_, ?_, ?_⟩
  · intro p hfind hp0
    simp only [hfind, Option.map_some', jsOrQ, if_neg hp0]
  · intro hfind
    simp only [hfind, Option.map_none', jsOrQ]
  · intro p hfind hp0
    simp only [hfind, Option.map_some', jsOrQ, if_pos hp0]

/-- Witness for C5's amended theorem at the counterexample input: the
reported gap is `amount - finalValue = 1000 - 500` because the matching
point's value is 0. -/
theorem analyzeGoals_gap_witness :
    ((analyzeGoals [⟨"g1", "casa", 1000, ⟨2024, 0, 1, 0⟩⟩]
        ⟨"c1", 100, 0, [⟨2024, 1, 0, []⟩, ⟨2024, 2, 500, []⟩], 500, 400⟩)[0]?).map
      GoalAnalysis.gap = some (1000 - 500) := by
  cases ha : (analyzeGoals [⟨"g1", "casa", 1000, ⟨2024, 0, 1, 0⟩⟩]
      (⟨"c1", 100, 0, [⟨2024, 1, 0, []⟩, ⟨2024, 2, 500, []⟩], 500, 400⟩ :
        WealthProjection))[0]? with
  | none => exact absurd ha (by decide)
  | some a =>
      have h := (analyzeGoals_gap [⟨"g1", "casa", 1000, ⟨2024, 0, 1, 0⟩⟩]
        ⟨"c1", 100, 0, [⟨2024, 1, 0, []⟩, ⟨2024, 2, 500, []⟩], 500, 400⟩ 0
        ⟨"g1", "casa", 1000, ⟨2024, 0, 1, 0⟩⟩ a (by decide) ha).2.2.2
        ⟨2024, 1, 0, []⟩ (by decide) rfl
      simp only [Option.map_some']
      rw [h]

theorem string_append_cancel_left {a b c : String} (h : a ++ b = a ++ c) : b = c := by
  have hd := congrArg String.data h
  rw [String.data_append, String.data_append] at hd
  exact String.ext (List.append_cancel_left hd)

/-- The final sort of `createSuggestions` preserves membership. -/
theorem mem_sortByPriority (s : Suggestion) (l : List Suggestion) :
    s ∈ sortByPriority l ↔ s ∈ l := by
  simp only [sortByPriority, List.mem_append, List.mem_filter]
  cases hp : s.priority <;> simp [hp]

/-- C6: for every analyzed infeasible goal (`feasible = false`, `gap > 0`,
goal ids distinct), the generated list contains the increase-contribution
suggestion (monthly amount `ceil(gap / monthsUntilTarget)`) iff
`monthsUntilTarget > 0`; it always contains the extend-timeline suggestion
(timeframe `ceil(gap / 1000)` months) and the reduce-goal suggestion
proposing `amount - |gap|` as the new target. -/
theorem infeasible_goal_suggestions (now : JSDate) (client : Client)
    (gas : List GoalAnalysis) (P : WealthProjection) (g : GoalAnalysis)
    (hmem : g ∈ gas) (hids : (gas.map GoalAnalysis.id).Nodup)
    (hfeas : g.feasible = false) (hgap : 0 < g.gap) :
    ((incSuggestion g (calculateMonthsUntilDate now g.targetDate) ∈
        createSuggestions now client gas P) ↔
      0 < calculateMonthsUntilDate now g.targetDate) ∧
    extSuggestion g ∈ createSuggestions now client gas P ∧
    (extSuggestion g).impact.timeframe = some ((⌈g.gap / 1000⌉ : Int) : ℚ) ∧
    redSuggestion g ∈ createSuggestions now client gas P ∧
    (incSuggestion g (calculateMonthsUntilDate now g.targetDate)).impact.monthlyAmount =
      some ((⌈g.gap / ((calculateMonthsUntilDate now g.targetDate : Int) : ℚ)⌉ : Int) : ℚ) ∧
    (redSuggestion g).description = "Considere reduzir o valor da meta \"" ++ g.type ++
      "\" para R$ " ++ fmtQ (g.amount - |g.gap|) ++ " para torná-la mais realista." := by
  have hbranch : perGoalSuggestions now g =
      (if 0 < calculateMonthsUntilDate now g.targetDate then
        [incSuggestion g (calculateMonthsUntilDate now g.targetDate)] else []) ++
        [extSuggestion g, redSuggestion g] := by
    rw [perGoalSuggestions, if_pos ⟨hfeas, hgap⟩]
  have hbase : ∀ s : Suggestion, s ∈ perGoalSuggestions now g →
      s ∈ createSuggestions now client gas P := by
    intro s hs
    rw [createSuggestions, mem_sortByPriority, createSuggestionsBase, List.mem_append]
    exact Or.inl (List.mem_flatMap.mpr ⟨g, hmem, hs⟩)
  refine ⟨⟨?_, ?_⟩, ?_, rfl, ?_, rfl, rfl⟩
  · -- if the contribution suggestion is in the output, monthsUntilTarget > 0
    intro hin
    rw [createSuggestions, mem_sortByPriority, createSuggestionsBase, List.mem_append] at hin
    rcases hin with hin | hin
    · rcases List.mem_flatMap.mp hin with ⟨g1, hg1, hsg1⟩
      rw [perGoalSuggestions] at hsg1
      by_cases hcond : g1.feasible = false ∧ g1.gap > 0
      · rw [if_pos hcond] at hsg1
        rcases List.mem_append.mp hsg1 with hsg1 | hsg1
        · by_cases hm1 : 0 < calculateMonthsUntilDate now g1.targetDate
          · rw [if_pos hm1] at hsg1
            rcases List.mem_singleton.mp hsg1 with heq
            have hid := congrArg Suggestion.id heq
            simp only [incSuggestion] at hid
            have hgid : g.id = g1.id := string_append_cancel_left hid
            have hgg : g = g1 := List.inj_on_of_nodup_map hids hmem hg1 hgid
            rw [hgg]
            exact hm1
          · rw [if_neg hm1] at hsg1
            exact absurd hsg1 (List.not_mem_nil _)
        · simp only [List.mem_cons, List.mem_singleton, List.not_mem_nil, or_false] at hsg1
          rcases hsg1 with hsg1 | hsg1
          · exact absurd (congrArg Suggestion.type hsg1) (by simp [incSuggestion, extSuggestion])
          · exact absurd (congrArg Suggestion.type hsg1) (by simp [incSuggestion, redSuggestion])
      · rw [if_neg hcond] at hsg1
        exact absurd hsg1 (List.not_mem_nil _)
    · by_cases hflag : allocationFlag client = true
      · rw [if_pos hflag] at hin
        rcases List.mem_singleton.mp hin with heq
        exact absurd (congrArg Suggestion.type heq) (by simp [incSuggestion, allocSuggestion])
      · rw [if_neg hflag] at hin
        exact absurd hin (List.not_mem_nil _)
  · -- if monthsUntilTarget > 0, the contribution suggestion is pushed
    intro hm
    apply hbase
    rw [hbranch, if_pos hm]
    exact List.mem_append.mpr (Or.inl (List.mem_singleton.mpr rfl))
  · apply hbase
    rw [hbranch]
    exact List.mem_append.mpr (Or.inr (by simp))
  · apply hbase
    rw [hbranch]
    exact List.mem_append.mpr (Or.inr (by simp))

/-- Witness for C6: a concrete infeasible goal (gap 5000, target 2030)
yields the extend-timeline suggestion in the generated list. -/
theorem infeasible_goal_suggestions_witness :
    extSuggestion ⟨"g1", "casa", 100000, ⟨2030, 0, 1, 0⟩, 5000, false⟩ ∈
      createSuggestions ⟨2024, 0, 1, 0⟩ ⟨"c1", none, [], []⟩
        [⟨"g1", "casa", 100000, ⟨2030, 0, 1, 0⟩, 5000, false⟩] ⟨"c1", 0, 0, [], 0, 0⟩ :=
  (infeasible_goal_suggestions ⟨2024, 0, 1, 0⟩ ⟨"c1", none, [], []⟩
    [⟨"g1", "casa", 100000, ⟨2030, 0, 1, 0⟩, 5000, false⟩] ⟨"c1", 0, 0, [], 0, 0⟩
    ⟨"g1", "casa", 100000, ⟨2030, 0, 1, 0⟩, 5000, false⟩
    (by decide) (by decide) rfl (by decide)).2.1

/-- Any member of the per-goal suggestion block comes from an infeasible
goal and is the contribution, timeline, or goal suggestion for it. -/
theorem mem_perGoal (now : JSDate) (g : GoalAnalysis) (s : Suggestion)
    (hs : s ∈ perGoalSuggestions now g) :
    (g.feasible = false ∧ 0 < g.gap) ∧
      (s = incSuggestion g (calculateMonthsUntilDate now g.targetDate) ∨
        s = extSuggestion g ∨ s = redSuggestion g) := by
  rw [perGoalSuggestions] at hs
  by_cases hcond : g.feasible = false ∧ g.gap > 0
  · rw [if_pos hcond] at hs
    refine ⟨hcond, ?_⟩
    rcases List.mem_append.mp hs with h | h
    · by_cases hm : 0 < calculateMonthsUntilDate now g.targetDate
      · rw [if_pos hm] at h
        exact Or.inl (List.mem_singleton.mp h)
      · rw [if_neg hm] at h
        exact absurd h (List.not_mem_nil _)
    · simp only [List.mem_cons, List.mem_singleton, List.not_mem_nil, or_false] at h
      exact Or.inr h
  · rw [if_neg hcond] at hs
    exact absurd hs (List.not_mem_nil _)

/-- The bucket sort is ordered by weakly decreasing priority. -/
theorem sortByPriority_pairwise (l : List Suggestion) :
    List.Pairwise (fun a b => priorityOrder b.priority ≤ priorityOrder a.priority)
      (sortByPriority l) := by
  have hbucket : ∀ (p : SuggestionPriority),
      List.Pairwise (fun a b => priorityOrder b.priority ≤ priorityOrder a.priority)
        (l.filter (fun s => s.priority == p)) := by
    intro p
    apply List.pairwise_of_forall_mem_list
    intro a ha b hb
    rw [beq_iff_eq.mp (List.mem_filter.mp ha).2,
      beq_iff_eq.mp (List.mem_filter.mp hb).2]
  rw [sortByPriority]
  rw [List.pairwise_append]
  refine ⟨hbucket _, ?_, ?_⟩
  · rw [List.pairwise_append]
    refine ⟨hbucket _, hbucket _, ?_⟩
    intro a ha b hb
    rw [beq_iff_eq.mp (List.mem_filter.mp ha).2,
      beq_iff_eq.mp (List.mem_filter.mp hb).2]
    decide
  · intro a ha b hb
    rcases List.mem_append.mp hb with hb | hb <;>
      rw [beq_iff_eq.mp (List.mem_filter.mp ha).2,
        beq_iff_eq.mp (List.mem_filter.mp hb).2] <;>
      decide

/-- The bucket sort is stable: for each priority it preserves the sublist
of suggestions with that priority exactly. -/
theorem sortByPriority_filter (p : SuggestionPriority) (l : List Suggestion) :
    (sortByPriority l).filter (fun s => s.priority == p) =
      l.filter (fun s => s.priority == p) := by
  have hsame : ∀ (q : SuggestionPriority), q = p →
      l.filter (fun s => (s.priority == p) && (s.priority == q)) =
        l.filter (fun s => s.priority == p) := by
    intro q hq
    subst hq
    exact List.filter_congr (fun s _ => Bool.and_self _)
  have hdiff : ∀ (q : SuggestionPriority), q ≠ p →
      l.filter (fun s => (s.priority == p) && (s.priority == q)) = [] := by
    intro q hq
    rw [List.filter_eq_nil_iff]
    intro s _ hcontra
    rw [Bool.and_eq_true, beq_iff_eq, beq_iff_eq] at hcontra
    exact hq (hcontra.2 ▸ hcontra.1 ▸ rfl)
  rw [sortByPriority, List.filter_append, List.filter_append,
    List.filter_filter, List.filter_filter, List.filter_filter]
  rcases p with _ | _ | _
  · rw [hsame _ rfl, hdiff SuggestionPriority.medium (by decide),
      hdiff SuggestionPriority.low (by decide)]
    simp
  · rw [hsame _ rfl, hdiff SuggestionPriority.high (by decide),
      hdiff SuggestionPriority.low (by decide)]
    simp
  · rw [hsame _ rfl, hdiff SuggestionPriority.high (by decide),
      hdiff SuggestionPriority.medium (by decide)]
    simp

/-- C7 (amended): in the generated list, only the increase-contribution
suggestion's priority follows the gap thresholds (`> 100000` high,
`> 50000` medium, else low); the extend-timeline suggestion is ALWAYS
`medium` and the reduce-goal suggestion ALWAYS `low`, regardless of gap;
the allocation suggestion is always `medium`.  The list is sorted by
weakly decreasing priority and the sort is stable (per-priority sublists
of the unsorted build order are preserved). -/
theorem suggestion_priorities (now : JSDate) (client : Client) (gas : List GoalAnalysis)
    (P : WealthProjection) :
    (∀ s ∈ createSuggestions now client gas P,
      (s.type = SuggestionType.extend_timeline → s.priority = SuggestionPriority.medium) ∧
      (s.type = SuggestionType.reduce_goal → s.priority = SuggestionPriority.low) ∧
      (s.type = SuggestionType.adjust_allocation → s.priority = SuggestionPriority.medium) ∧
      (s.type = SuggestionType.increase_contribution →
        ∃ g ∈ gas, 0 < g.gap ∧ s.priority = gapPriority g.gap)) ∧
    List.Pairwise (fun a b => priorityOrder b.priority ≤ priorityOrder a.priority)
      (createSuggestions now client gas P) ∧
    (∀ p, (createSuggestions now client gas P).filter (fun s => s.priority == p) =
      (createSuggestionsBase now client gas P).filter (fun s => s.priority == p)) := by
  refine ⟨?_, sortByPriority_pairwise _, fun p => sortByPriority_filter p _⟩
  intro s hs
  rw [createSuggestions, mem_sortByPriority, createSuggestionsBase, List.mem_append] at hs
  rcases hs with hs | hs
  · rcases List.mem_flatMap.mp hs with ⟨g, hg, hsg⟩
    rcases mem_perGoal now g s hsg with ⟨⟨_, hgap⟩, heq | heq | heq⟩ <;> subst heq
    · exact ⟨fun h => absurd h (by simp [incSuggestion]),
        fun h => absurd h (by simp [incSuggestion]),
        fun h => absurd h (by simp [incSuggestion]),
        fun _ => ⟨g, hg, hgap, rfl⟩⟩
    · exact ⟨fun _ => rfl, fun h => absurd h (by simp [extSuggestion]),
        fun h => absurd h (by simp [extSuggestion]),
        fun h => absurd h (by simp [extSuggestion])⟩
    · exact ⟨fun h => absurd h (by simp [redSuggestion]), fun _ => rfl,
        fun h => absurd h (by simp [redSuggestion]),
        fun h => absurd h (by simp [redSuggestion])⟩
  · by_cases hflag : allocationFlag client = true
    · rw [if_pos hflag] at hs
      rcases List.mem_singleton.mp hs with heq
      subst heq
      exact ⟨fun h => absurd h (by simp [allocSuggestion]),
        fun h => absurd h (by simp [allocSuggestion]), fun _ => rfl,
        fun h => absurd h (by simp [allocSuggestion])⟩
    · rw [if_neg hflag] at hs
      exact absurd hs (List.not_mem_nil _)

theorem monthsUntil_2024_2030 :
    calculateMonthsUntilDate ⟨2024, 0, 1, 0⟩ ⟨2030, 0, 1, 0⟩ = 77 := by
  rw [calculateMonthsUntilDate]
  rw [show (⟨2030, 0, 1, 0⟩ : JSDate).getTime - (⟨2024, 0, 1, 0⟩ : JSDate).getTime =
    199065600000 by decide]
  rw [show ⌈((199065600000 : Int) : ℚ) / (1000 * 60 * 60 * 24 * 30)⌉ = 77 by
    rw [Int.ceil_eq_iff] <;> norm_num]
  decide

/-- The generated suggestions for one infeasible goal with gap 150000
(target January 2030, "now" January 2024, no wallet), fully evaluated. -/
theorem createSuggestions_gap150 :
    createSuggestions ⟨2024, 0, 1, 0⟩ ⟨"c1", none, [], []⟩
        [⟨"g1", "casa", 800000, ⟨2030, 0, 1, 0⟩, 150000, false⟩] ⟨"c1", 0, 0, [], 0, 0⟩ =
      [incSuggestion ⟨"g1", "casa", 800000, ⟨2030, 0, 1, 0⟩, 150000, false⟩ 77,
        extSuggestion ⟨"g1", "casa", 800000, ⟨2030, 0, 1, 0⟩, 150000, false⟩,
        redSuggestion ⟨"g1", "casa", 800000, ⟨2030, 0, 1, 0⟩, 150000, false⟩] := by
  have hmonths := monthsUntil_2024_2030
  have hprio : gapPriority (150000 : ℚ) = SuggestionPriority.high := by
    rw [gapPriority, if_pos (by norm_num)]
  simp only [createSuggestions, createSuggestionsBase, List.flatMap_cons, List.flatMap_nil,
    perGoalSuggestions, allocationFlag, List.append_nil]
  rw [if_pos (⟨trivial, by norm_num⟩ : True ∧ (150000 : ℚ) > 0)]
  rw [if_neg (by decide : ¬ false = true)]
  rw [hmonths, if_pos (by decide : (77 : Int) > 0)]
  rw [sortByPriority]
  simp [incSuggestion, extSuggestion, redSuggestion, hprio]

/-- C7 counterexample: for a goal with gap 150000 (> 100000), the emitted
reduce-goal suggestion has priority `low`, not `high` as the claim's
uniform threshold rule requires for every suggestion of that goal. -/
theorem suggestion_priority_cex :
    ((createSuggestions ⟨2024, 0, 1, 0⟩ ⟨"c1", none, [], []⟩
        [⟨"g1", "casa", 800000, ⟨2030, 0, 1, 0⟩, 150000, false⟩]
        ⟨"c1", 0, 0, [], 0, 0⟩).filter
      (fun s => s.type == SuggestionType.reduce_goal)).map Suggestion.priority =
        [SuggestionPriority.low] ∧
    ((150000 : ℚ) > 100000) ∧
    SuggestionPriority.low ≠ SuggestionPriority.high := by
  refine ⟨?_, by norm_num, by decide⟩
  rw [createSuggestions_gap150]
  decide

/-- Witness for C7's amended theorem: at the same input, the reduce-goal
suggestion is in the output and the theorem forces its priority `low`. -/
theorem suggestion_priorities_witness :
    (redSuggestion ⟨"g1", "casa", 800000, ⟨2030, 0, 1, 0⟩, 150000, false⟩).priority =
      SuggestionPriority.low :=
  ((suggestion_priorities ⟨2024, 0, 1, 0⟩ ⟨"c1", none, [], []⟩
      [⟨"g1", "casa", 800000, ⟨2030, 0, 1, 0⟩, 150000, false⟩] ⟨"c1", 0, 0, [], 0, 0⟩).1
    (redSuggestion ⟨"g1", "casa", 800000, ⟨2030, 0, 1, 0⟩, 150000, false⟩)
    (by rw [createSuggestions_gap150]; simp)).2.1 rfl

/-- C8: the compare request body passes validation iff it carries 2 to 5
simulation ids: any list of fewer than 2 or more than 5 ids is rejected
(regardless of contents), and any list of 2 to 5 well-formed cuid ids is
accepted. -/
theorem compare_cardinality (ids : List String) :
    ((ids.length < 2 ∨ 5 < ids.length) → compareBodyValid ids = false) ∧
    ((∀ id ∈ ids, isCuid id = true) → 2 ≤ ids.length → ids.length ≤ 5 →
      compareBodyValid ids = true) := by
  constructor
  · intro h
    rw [compareBodyValid]
    rcases h with h | h
    · rw [show decide (2 ≤ ids.length) = false by simpa using h]
      simp
    · rw [show decide (ids.length ≤ 5) = false by simp; omega]
      simp
  · intro hall h2 h5
    rw [compareBodyValid, List.all_eq_true.mpr hall]
    simp [h2, h5]

/-- Witness for C8: a single id and six ids are rejected; two ids are
accepted. -/
theorem compare_cardinality_witness :
    compareBodyValid ["c123456789"] = false ∧
    compareBodyValid ["c123456789", "c223456789", "c323456789", "c423456789",
      "c523456789", "c623456789"] = false ∧
    compareBodyValid ["c123456789", "c223456789"] = true :=
  ⟨(compare_cardinality ["c123456789"]).1 (by decide),
    (compare_cardinality ["c123456789", "c223456789", "c323456789", "c423456789",
      "c523456789", "c623456789"]).1 (by decide),
    (compare_cardinality ["c123456789", "c223456789"]).2 (by decide) (by decide) (by decide)⟩

/-- The month grid of a one-year simulation starting in 2060, fully
evaluated (the builder's horizon is [now.year, 2060]). -/
theorem monthsRange_2060 : monthsRange 2060 2060 =
    [(2060, 1), (2060, 2), (2060, 3), (2060, 4), (2060, 5), (2060, 6), (2060, 7), (2060, 8),
      (2060, 9), (2060, 10), (2060, 11), (2060, 12)] := by
  decide

/-- At the C9 counterexample input (wallet 100, one `once` withdrawal of
100 at the first simulated month, rate 0, "now" January 2060) the last
projection point's value is exactly 0. -/
theorem projection_zero_last_point :
    ((createClientProjection ⟨2060, 0, 1, 0⟩ "c1" (some ⟨100, none⟩)
        [⟨"saque", -100, some "once", some ⟨2060, 0, 1, 0⟩⟩] 0).projectionPoints.getLast?).map
      ProjectionPoint.projectedValue = some 0 := by
  simp only [createClientProjection, toProjectionEvents, simulateWealthCurve,
    monthsRange_2060, simRun, stepValue, monthEvents, shouldApplyEvent, jsOrQ, jsOrStr,
    List.map_cons, List.map_nil, List.foldl_cons, List.foldl_nil, List.filter_cons,
    List.filter_nil, List.getLast?_cons_cons, List.getLast?_singleton, Option.map_some',
    Option.getD_some, monthStart, JSDate.getTime]
  norm_num [round2, jsRound]

/-- C9 counterexample: at that input `finalValue` is 100 (the JS `||`
falls back to `initialValue` because the last point's value 0 is falsy),
while the last point's `projectedValue` is 0 — so `finalValue` differs
from the last point's value although `projectionPoints` is non-empty. -/
theorem finalValue_zero_fallback_cex :
    (createClientProjection ⟨2060, 0, 1, 0⟩ "c1" (some ⟨100, none⟩)
        [⟨"saque", -100, some "once", some ⟨2060, 0, 1, 0⟩⟩] 0).finalValue = 100 ∧
    ((createClientProjection ⟨2060, 0, 1, 0⟩ "c1" (some ⟨100, none⟩)
        [⟨"saque", -100, some "once", some ⟨2060, 0, 1, 0⟩⟩] 0).projectionPoints.getLast?).map
      ProjectionPoint.projectedValue = some 0 ∧
    ((100 : ℚ) ≠ 0) := by
  refine ⟨?_, projection_zero_last_point, by norm_num⟩
  simp only [createClientProjection, toProjectionEvents, simulateWealthCurve,
    monthsRange_2060, simRun, stepValue, monthEvents, shouldApplyEvent, jsOrQ, jsOrStr,
    List.map_cons, List.map_nil, List.foldl_cons, List.foldl_nil, List.filter_cons,
    List.filter_nil, List.getLast?_cons_cons, List.getLast?_singleton, Option.map_some',
    Option.getD_some, monthStart, JSDate.getTime]
  norm_num [round2, jsRound]

/-- C9 (amended): for both the projection builder and the suggestion
impact simulator, when the projection points are non-empty, `finalValue`
equals the last point's `projectedValue` EXCEPT when that value is exactly
0, in which case the JS `||` makes it fall back to `initialValue`. -/
theorem finalValue_policy (now : JSDate) (cid : String) (w : Option Wallet)
    (es : List DbEvent) (r : ℚ) (sg : Suggestion) :
    (∀ p, (createClientProjection now cid w es r).projectionPoints.getLast? = some p →
      (createClientProjection now cid w es r).finalValue =
        if p.projectedValue = 0 then (createClientProjection now cid w es r).initialValue
        else p.projectedValue) ∧
    (∀ p, (simulateSuggestionImpact now cid w es sg).projectionPoints.getLast? = some p →
      (simulateSuggestionImpact now cid w es sg).finalValue =
        if p.projectedValue = 0 then (simulateSuggestionImpact now cid w es sg).initialValue
        else p.projectedValue) := by
  constructor
  · intro p hp
    simp only [createClientProjection] at hp ⊢
    rw [hp, Option.map_some', jsOrQ]
  · intro p hp
    simp only [simulateSuggestionImpact] at hp ⊢
    rw [hp, Option.map_some', jsOrQ]

/-- Witness for C9's amended theorem at the counterexample input:
`finalValue` equals `initialValue` because the last point's value is 0. -/
theorem finalValue_policy_witness :
    (createClientProjection ⟨2060, 0, 1, 0⟩ "c1" (some ⟨100, none⟩)
        [⟨"saque", -100, some "once", some ⟨2060, 0, 1, 0⟩⟩] 0).finalValue =
      (createClientProjection ⟨2060, 0, 1, 0⟩ "c1" (some ⟨100, none⟩)
        [⟨"saque", -100, some "once", some ⟨2060, 0, 1, 0⟩⟩] 0).initialValue := by
  cases hp : (createClientProjection ⟨2060, 0, 1, 0⟩ "c1" (some ⟨100, none⟩)
      [⟨"saque", -100, some "once", some ⟨2060, 0, 1, 0⟩⟩] 0).projectionPoints.getLast? with
  | none => exact absurd hp (by decide)
  | some p =>
      have h0 : p.projectedValue = 0 := by
        have hz := projection_zero_last_point
        rw [hp, Option.map_some', Option.some.injEq] at hz
        exact hz
      rw [(finalValue_policy ⟨2060, 0, 1, 0⟩ "c1" (some ⟨100, none⟩)
        [⟨"saque", -100, some "once", some ⟨2060, 0, 1, 0⟩⟩] 0
        ⟨"x", SuggestionType.reduce_goal, "", "", ⟨none, none, none, none⟩,
          SuggestionPriority.low, SuggestionCategory.goal⟩).1 p hp, if_pos h0]

/-- C10: the `results.projectionYears` stored by `saveSimulation` is
`new Date().getFullYear() - 2060` — the current calendar year minus 2060,
non-positive in any year up to 2060 — not the span of the projection. -/
theorem savedResults_projectionYears (now : JSDate) (P : WealthProjection)
    (nm ds : Option String) (tg : Option (List String)) :
    (buildSavedMetadata now P nm ds tg).results.projectionYears = now.year - 2060 ∧
    (now.year ≤ 2060 → (buildSavedMetadata now P nm ds tg).results.projectionYears ≤ 0) := by
  refine ⟨rfl, ?_⟩
  intro h
  simp only [buildSavedMetadata]
  omega

/-- Witness for C10: a simulation saved in 2025 stores
`projectionYears = 2025 - 2060 = -35 ≤ 0`, regardless of the projection's
actual span. -/
theorem savedResults_projectionYears_witness :
    (buildSavedMetadata ⟨2025, 0, 1, 0⟩ ⟨"c1", 0, 0, [], 0, 0⟩ none none
        none).results.projectionYears = 2025 - 2060 ∧
    (buildSavedMetadata ⟨2025, 0, 1, 0⟩ ⟨"c1", 0, 0, [], 0, 0⟩ none none
        none).results.projectionYears ≤ 0 :=
  ⟨(savedResults_projectionYears ⟨2025, 0, 1, 0⟩ ⟨"c1", 0, 0, [], 0, 0⟩ none none none).1,
    (savedResults_projectionYears ⟨2025, 0, 1, 0⟩ ⟨"c1", 0, 0, [], 0, 0⟩ none none none).2
      (by decide)⟩

end Ankatech
